import Mathlib

/-!
Verification development for the LLDP network discovery tool
(`lldp_network_discovery.py` and `lldp_visualize.py`).

The Python source is shallowly embedded: each parser, the probe loop of
`NetworkDiscovery.discover_network`, the hostname resolution helpers and the
JSON export/load pair become executable Lean functions over `String` and
`List`.  The regular expressions used by the source are small and fixed, so
each one is translated into a dedicated search function with the exact
leftmost-search and backtracking behaviour of Python `re.search` on that
pattern (for ASCII input).
-/

namespace LLDP

/-- Models Python `\s` / `str.strip` whitespace for ASCII characters:
space, tab, newline, carriage return, vertical tab, form feed. -/
def pyIsSpace (c : Char) : Bool :=
  c == ' ' || c == '\t' || c == '\n' || c == '\r' ||
  c == Char.ofNat 11 || c == Char.ofNat 12

/-- Models Python `str.strip()` (for ASCII input): drop whitespace from both
ends. -/
def pyStrip (s : String) : String :=
  (((s.toList.dropWhile pyIsSpace).reverse.dropWhile pyIsSpace).reverse).asString

/-- Models Python `str.split('\n')` on a list of characters: split at every
newline, keeping empty pieces; the empty string yields one empty piece. -/
def splitLinesList : List Char → List (List Char)
  | [] => [[]]
  | c :: rest =>
    let r := splitLinesList rest
    if c == '\n' then [] :: r
    else
      match r with
      | h :: t => (c :: h) :: t
      | [] => [[c]]

/-- Models Python `output.split('\n')`. -/
def pySplitLines (s : String) : List String :=
  (splitLinesList s.toList).map List.asString

/-- Contiguous-sublist test: `sub` occurs somewhere in the list. -/
def listHasInfix (sub : List Char) : List Char → Bool
  | [] => sub.isEmpty
  | c :: rest => sub.isPrefixOf (c :: rest) || listHasInfix sub rest

/-- Models Python `sub in s` (substring containment). -/
def strContains (s sub : String) : Bool :=
  listHasInfix sub.toList s.toList

/-- Models Python `str.lower()` for ASCII input. -/
def strLower (s : String) : String :=
  (s.toList.map Char.toLower).asString

/-- Models Python `str.startswith(p)`. -/
def strStartsWith (s p : String) : Bool :=
  p.toList.isPrefixOf s.toList

/-- Models Python `line.split('=', 1)`: split at the first occurrence of the
character, returning the parts before and after; `none` when absent (the
source guards with `'=' in line`). -/
def splitAtFirst (c : Char) : List Char → Option (List Char × List Char)
  | [] => none
  | x :: xs =>
    if x == c then some ([], xs)
    else (splitAtFirst c xs).map (fun p => (x :: p.1, p.2))

/-! ## Regular-expression searches used by the source

Each Python pattern is compiled by hand into a matcher that is run at every
start position, leftmost success winning, exactly as `re.search` does. -/

/-- Matcher for the tail pattern `\s*(\S+)`: skip whitespace greedily, then
capture a maximal nonempty run of non-whitespace.  (Backtracking the `\s*`
cannot help: the capture would have to start on a whitespace character.) -/
def tryNonspaceCap (t : List Char) : Option (List Char) :=
  match t.dropWhile pyIsSpace with
  | [] => none
  | u => some (u.takeWhile (fun c => !pyIsSpace c))

/-- Matcher combinator for `\s*:` followed by a tail matcher. -/
def tryColonThen (cap : List Char → Option (List Char)) (t : List Char) :
    Option (List Char) :=
  match t.dropWhile pyIsSpace with
  | ':' :: r => cap r
  | _ => none

/-- True when a character is matched by the regex atom `.` (anything except
a newline). -/
def notNl (c : Char) : Bool := c != '\n'

/-- Backtracking loop for the tail pattern `\s*(.+)`: `j` is the number of
whitespace characters consumed by `\s*`, tried greedily from the maximal run
downwards, as the Python engine does.  At each `j` the capture `(.+)` needs a
first character other than a newline and then extends greedily. -/
def tryDotPlusAt (t : List Char) : Nat → Option (List Char)
  | 0 =>
    match t with
    | [] => none
    | c :: _ => if c == '\n' then none else some (t.takeWhile notNl)
  | j + 1 =>
    match t.drop (j + 1) with
    | [] => tryDotPlusAt t j
    | c :: _ =>
      if c == '\n' then tryDotPlusAt t j
      else some ((t.drop (j + 1)).takeWhile notNl)

/-- Matcher for the tail pattern `\s*(.+)`. -/
def tryDotPlus (t : List Char) : Option (List Char) :=
  tryDotPlusAt t (t.takeWhile pyIsSpace).length

/-- True when a character is matched by the regex class `[^"\n]`. -/
def notQnl (c : Char) : Bool := c != '"' && c != '\n'

/-- Attempt the tail pattern `"?([^"\n]+)"?` at a fixed position: an optional
opening quote (preferred when present), then a maximal nonempty capture of
characters other than quote or newline; the closing `"?` always succeeds. -/
def tryQuoteHere : List Char → Option (List Char)
  | [] => none
  | '"' :: u =>
    match u with
    | [] => none
    | d :: _ => if notQnl d then some (u.takeWhile notQnl) else none
  | u@(c :: _) => if notQnl c then some (u.takeWhile notQnl) else none

/-- Backtracking loop for the tail pattern `\s*"?([^"\n]+)"?`, with `j` the
number of whitespace characters consumed by `\s*`, tried greedily. -/
def tryQuoteCapAt (t : List Char) : Nat → Option (List Char)
  | 0 => tryQuoteHere t
  | j + 1 =>
    match tryQuoteHere (t.drop (j + 1)) with
    | some cap => some cap
    | none => tryQuoteCapAt t j

/-- Matcher for the tail pattern `\s*"?([^"\n]+)"?`. -/
def tryQuoteCap (t : List Char) : Option (List Char) :=
  tryQuoteCapAt t (t.takeWhile pyIsSpace).length

/-- Matcher for the tail of `Interface\s+(\S+)\s+detected`: at least one
whitespace, a maximal nonempty run of non-whitespace (the capture), at least
one whitespace, then the literal `detected`. -/
def tryIfaceDetected (t : List Char) : Option (List Char) :=
  match t with
  | [] => none
  | c :: _ =>
    if !pyIsSpace c then none
    else
      let t1 := t.dropWhile pyIsSpace
      if t1.isEmpty then none
      else
        let cap := t1.takeWhile (fun x => !pyIsSpace x)
        let t2 := t1.drop cap.length
        if t2.isEmpty then none
        else if "detected".toList.isPrefixOf (t2.dropWhile pyIsSpace) then some cap
        else none

/-- Matcher for the tail of `hostname\s+"?([^"\s]+)"?`: at least one
whitespace, an optional quote, then a maximal nonempty capture of characters
that are neither quote nor whitespace. -/
def tryHostnameCap (t : List Char) : Option (List Char) :=
  match t with
  | [] => none
  | c :: _ =>
    if !pyIsSpace c then none
    else
      match t.dropWhile pyIsSpace with
      | [] => none
      | '"' :: u =>
        match u with
        | [] => none
        | d :: _ =>
          if d != '"' && !pyIsSpace d then
            some (u.takeWhile (fun x => x != '"' && !pyIsSpace x))
          else none
      | u@(_ :: _) => some (u.takeWhile (fun x => x != '"' && !pyIsSpace x))

/-- Models `re.search` for a pattern consisting of a literal followed by a
tail matcher: every start position is tried left to right; at a position where
the literal occurs, the tail matcher runs on the remainder; the first success
wins. -/
def searchFrom (lit : List Char) (m : List Char → Option (List Char)) :
    List Char → Option (List Char)
  | [] => if lit.isEmpty then m [] else none
  | c :: rest =>
    if lit.isPrefixOf (c :: rest) then
      match m ((c :: rest).drop lit.length) with
      | some cap => some cap
      | none => searchFrom lit m rest
    else searchFrom lit m rest

/-- String-level wrapper for `searchFrom`, returning the captured group. -/
def reSearch (lit : String) (m : List Char → Option (List Char)) (s : String) :
    Option String :=
  (searchFrom lit.toList m s.toList).map List.asString

/-! ## NeighborRecord and the vendor parsers -/

/-- One parsed neighbor block: the keys the parsers may set, each optional
(a Python dict that may lack any of them). -/
structure NeighborRecord where
  local_port : Option String := none
  remote_device : Option String := none
  remote_port : Option String := none
  remote_ip : Option String := none
deriving DecidableEq, Repr

/-- The empty record (`current_neighbor = {}`). -/
def emptyRecord : NeighborRecord := {}

/-- Python truthiness of the `current_neighbor` dict: at least one key set. -/
def recNonempty (r : NeighborRecord) : Bool :=
  r.local_port.isSome || r.remote_device.isSome ||
  r.remote_port.isSome || r.remote_ip.isSome

/-- Mikrotik key/value dispatch (source lines 104-117): split at the first
`=`, strip both parts and test substrings of the lowercased key, in the
source's `if`/`elif` order.  Note the `interface-name` branch follows the
`interface` test in the chain. -/
def mikrotikApplyKV (r : NeighborRecord) (line : String) : NeighborRecord :=
  match splitAtFirst '=' line.toList with
  | none => r
  | some (k, v) =>
    let key := strLower (pyStrip k.asString)
    let value := pyStrip v.asString
    if strContains key "interface" then { r with local_port := some value }
    else if strContains key "identity" || strContains key "system-name" then
      { r with remote_device := some value }
    else if strContains key "interface-name" then { r with remote_port := some value }
    else if strContains key "address" then { r with remote_ip := some value }
    else r

/-- Models `re.match(r'^\d+', line)` succeeding: the line starts with an
ASCII digit. -/
def startsWithDigit (l : String) : Bool :=
  match l.toList with
  | [] => false
  | c :: _ => c.isDigit

/-- One loop iteration of `MikrotikSwitch.get_lldp_neighbors` (source lines
94-117): strip, skip blank and `Flags:` lines, flush on a leading numeric
index, then apply the key/value dispatch. -/
def mikrotikStep (st : List NeighborRecord × NeighborRecord) (raw : String) :
    List NeighborRecord × NeighborRecord :=
  let line := pyStrip raw
  if line == "" || strStartsWith line "Flags:" then st
  else
    let st1 :=
      if startsWithDigit line then
        ((if recNonempty st.2 then st.1 ++ [st.2] else st.1), emptyRecord)
      else st
    (st1.1, mikrotikApplyKV st1.2 line)

/-- The scan loop of the Mikrotik parser over already-split lines. -/
def mikrotikScan (lines : List String) : List NeighborRecord × NeighborRecord :=
  lines.foldl mikrotikStep ([], emptyRecord)

/-- The Mikrotik parser on split lines, including the final flush (source
lines 119-120). -/
def mikrotikParseLines (lines : List String) : List NeighborRecord :=
  if recNonempty (mikrotikScan lines).2 then
    (mikrotikScan lines).1 ++ [(mikrotikScan lines).2]
  else (mikrotikScan lines).1

/-- `MikrotikSwitch.get_lldp_neighbors` applied to the raw command output. -/
def mikrotik_get_lldp_neighbors (output : String) : List NeighborRecord :=
  mikrotikParseLines (pySplitLines output)

/-- Field update `current_neighbor['remote_device'] = m.group(1).strip()`. -/
def updRD (c : NeighborRecord) : Option String → NeighborRecord
  | some v => { c with remote_device := some (pyStrip v) }
  | none => c

/-- Field update `current_neighbor['remote_port'] = m.group(1).strip()`. -/
def updRP (c : NeighborRecord) : Option String → NeighborRecord
  | some v => { c with remote_port := some (pyStrip v) }
  | none => c

/-- Field update `current_neighbor['remote_ip'] = m.group(1)` (no strip). -/
def updRIP (c : NeighborRecord) : Option String → NeighborRecord
  | some v => { c with remote_ip := some v }
  | none => c

/-- The non-trigger field matches of `ArubaSwitch.get_lldp_neighbors` (source
lines 150-163): `System Name\s*:\s*(.+)`, `Port ID\s*:\s*(.+)` (both captures
stripped) and `Management Address\s*:\s*(\S+)`, applied in source order. -/
def arubaFieldUpdates (cur : NeighborRecord) (line : String) : NeighborRecord :=
  updRIP
    (updRP
      (updRD cur (reSearch "System Name" (tryColonThen tryDotPlus) line))
      (reSearch "Port ID" (tryColonThen tryDotPlus) line))
    (reSearch "Management Address" (tryColonThen tryNonspaceCap) line)

/-- The block trigger of the Aruba parser: `Local Port\s*:\s*(\S+)`. -/
def arubaTrig (line : String) : Option String :=
  reSearch "Local Port" (tryColonThen tryNonspaceCap) line

/-- The non-trigger field matches of `AristaSwitch.get_lldp_neighbors`
(source lines 203-216): `System Name:\s*"?([^"\n]+)"?`,
`Port ID\s*:\s*"?([^"\n]+)"?` (captures stripped) and
`Management Address\s*:\s*(\S+)`, in source order. -/
def aristaFieldUpdates (cur : NeighborRecord) (line : String) : NeighborRecord :=
  updRIP
    (updRP
      (updRD cur (reSearch "System Name:" tryQuoteCap line))
      (reSearch "Port ID" (tryColonThen tryQuoteCap) line))
    (reSearch "Management Address" (tryColonThen tryNonspaceCap) line)

/-- The block trigger of the Arista parser: `Interface\s+(\S+)\s+detected`. -/
def aristaTrig (line : String) : Option String :=
  reSearch "Interface" tryIfaceDetected line

/-- One loop iteration shared by the Aruba and Arista parsers: strip the
line; on a trigger match flush a non-empty buffer and seed a fresh record
with the captured local port; then run the remaining field matches on the
same line. -/
def blockStep (trig : String → Option String)
    (upd : NeighborRecord → String → NeighborRecord)
    (st : List NeighborRecord × NeighborRecord) (raw : String) :
    List NeighborRecord × NeighborRecord :=
  let line := pyStrip raw
  match trig line with
  | some v =>
    ((if recNonempty st.2 then st.1 ++ [st.2] else st.1),
      upd { local_port := some v } line)
  | none => (st.1, upd st.2 line)

/-- The scan loop of a labeled-block parser over already-split lines. -/
def blockScan (trig : String → Option String)
    (upd : NeighborRecord → String → NeighborRecord) (lines : List String) :
    List NeighborRecord × NeighborRecord :=
  lines.foldl (blockStep trig upd) ([], emptyRecord)

/-- A labeled-block parser on split lines, including the final flush. -/
def blockParseLines (trig : String → Option String)
    (upd : NeighborRecord → String → NeighborRecord) (lines : List String) :
    List NeighborRecord :=
  if recNonempty (blockScan trig upd lines).2 then
    (blockScan trig upd lines).1 ++ [(blockScan trig upd lines).2]
  else (blockScan trig upd lines).1

/-- The Aruba parser on split lines (source lines 139-168). -/
def arubaParseLines (lines : List String) : List NeighborRecord :=
  blockParseLines arubaTrig arubaFieldUpdates lines

/-- `ArubaSwitch.get_lldp_neighbors` applied to the raw command output. -/
def aruba_get_lldp_neighbors (output : String) : List NeighborRecord :=
  arubaParseLines (pySplitLines output)

/-- The Arista parser on split lines (source lines 192-221). -/
def aristaParseLines (lines : List String) : List NeighborRecord :=
  blockParseLines aristaTrig aristaFieldUpdates lines

/-- `AristaSwitch.get_lldp_neighbors` applied to the raw command output. -/
def arista_get_lldp_neighbors (output : String) : List NeighborRecord :=
  aristaParseLines (pySplitLines output)

/-! ## Hostname (identity) resolution -/

/-- The identity pattern of `MikrotikSwitch.get_hostname`:
`re.search(r'name:\s*(\S+)', output)`. -/
def searchMikrotikIdentity (out : String) : Option String :=
  reSearch "name:" tryNonspaceCap out

/-- `MikrotikSwitch.get_hostname` (source lines 81-85): the captured identity
if the pattern matches, else the configured address. -/
def mikrotik_get_hostname (configured out : String) : String :=
  (searchMikrotikIdentity out).getD configured

/-- The identity pattern of `ArubaSwitch.get_hostname`:
`re.search(r'hostname\s+"?([^"\s]+)"?', output)`. -/
def searchArubaHostname (out : String) : Option String :=
  reSearch "hostname" tryHostnameCap out

/-- `ArubaSwitch.get_hostname` (source lines 128-132). -/
def aruba_get_hostname (configured out : String) : String :=
  (searchArubaHostname out).getD configured

/-- The line scan of `AristaSwitch.get_hostname` (source lines 177-184):
the first stripped line that is nonempty and starts with neither `Hostname:`
nor `FQDN:` is returned as-is; otherwise a `Hostname:\s*(\S+)` capture on the
line is returned when it matches. -/
def aristaIdentityLines : List String → Option String
  | [] => none
  | raw :: rest =>
    let line := pyStrip raw
    if line != "" && !strStartsWith line "Hostname:" && !strStartsWith line "FQDN:" then
      some line
    else
      match reSearch "Hostname:" tryNonspaceCap line with
      | some m => some m
      | none => aristaIdentityLines rest

/-- The identity resolution of `AristaSwitch.get_hostname` on the raw output
(`output.strip().split('\n')`). -/
def aristaIdentity (out : String) : Option String :=
  aristaIdentityLines (pySplitLines (pyStrip out))

/-- `AristaSwitch.get_hostname` (source lines 174-185). -/
def arista_get_hostname (configured out : String) : String :=
  (aristaIdentity out).getD configured

/-! ## Device probe and topology aggregation -/

/-- A device registry entry (`self.devices[device_name]`, source lines
274-278). -/
structure DeviceInfo where
  hostname : String
  vendor : String
  ip : String
deriving DecidableEq, Repr

/-- A connection entry built by `discover_network` (source lines 282-288). -/
structure Connection where
  local_device : String
  local_port : String
  remote_device : String
  remote_port : String
  remote_ip : String
deriving DecidableEq, Repr

/-- The mandatory-field check of source line 281:
`all(k in neighbor for k in ['local_port', 'remote_device', 'remote_port'])`. -/
def recordHasMandatory (r : NeighborRecord) : Bool :=
  r.local_port.isSome && r.remote_device.isSome && r.remote_port.isSome

/-- One iteration of the neighbor loop (source lines 280-289): a record with
all three mandatory fields yields a `Connection` (with the `remote_ip`
sentinel default `"N/A"`), any other record yields nothing. -/
def mkConnection (deviceName : String) (r : NeighborRecord) : Option Connection :=
  match r.local_port, r.remote_device, r.remote_port with
  | some lp, some rd, some rp =>
    some { local_device := deviceName, local_port := lp, remote_device := rd,
           remote_port := rp, remote_ip := r.remote_ip.getD "N/A" }
  | _, _, _ => none

/-- The whole neighbor loop of the probe: the surviving records, in order. -/
def buildConnections (deviceName : String) (neighbors : List NeighborRecord) :
    List Connection :=
  neighbors.filterMap (mkConnection deviceName)

/-- The `Connection` a surviving record gives rise to, written directly in
terms of the record's fields (used to state the probe filter property). -/
def connFromRecord (deviceName : String) (r : NeighborRecord) : Connection :=
  { local_device := deviceName, local_port := r.local_port.getD "",
    remote_device := r.remote_device.getD "", remote_port := r.remote_port.getD "",
    remote_ip := r.remote_ip.getD "N/A" }

/-- The aggregator state: `self.devices` (an insertion-ordered dict) and
`self.topology` (a `defaultdict(list)`, keys materialized by appends). -/
structure Topology where
  devices : List (String × DeviceInfo)
  connections : List (String × List Connection)
deriving DecidableEq, Repr

/-- Python dict assignment `self.devices[k] = v`: overwrite in place when the
key exists, else append at the end. -/
def upsertDevice (ds : List (String × DeviceInfo)) (k : String) (v : DeviceInfo) :
    List (String × DeviceInfo) :=
  if ds.any (fun p => p.1 == k) then
    ds.map (fun p => if p.1 == k then (p.1, v) else p)
  else ds ++ [(k, v)]

/-- The effect of `self.topology[k].append(c)` over a whole probe: an empty
connection list leaves the defaultdict untouched; otherwise the key's list is
extended, the key being created at the end on first append. -/
def appendConns (cs : List (String × List Connection)) (k : String)
    (new : List Connection) : List (String × List Connection) :=
  if new.isEmpty then cs
  else if cs.any (fun p => p.1 == k) then
    cs.map (fun p => if p.1 == k then (p.1, p.2 ++ new) else p)
  else cs ++ [(k, new)]

/-- One switch entry of the YAML configuration (only the fields the probe
loop consults for the claims at hand). -/
structure SwitchConfig where
  hostname : String
  vendor : String
deriving DecidableEq, Repr

/-- The transport collaborator: whether `connect()` succeeds for an address,
and the stdout text `execute_command` returns for (address, command). -/
structure Env where
  connectOk : String → Bool
  output : String → String → String

/-- The closed set of supported vendor families (`self.switch_classes`). -/
inductive Vendor
  | mikrotik
  | aruba
  | arista
deriving DecidableEq, Repr

/-- The vendor lookup of source lines 254 and 260:
`switch_config['vendor'].lower()` against the `switch_classes` keys. -/
def lookupVendor (v : String) : Option Vendor :=
  let lv := strLower v
  if lv == "mikrotik" then some Vendor.mikrotik
  else if lv == "aruba" then some Vendor.aruba
  else if lv == "arista" then some Vendor.arista
  else none

/-- The per-vendor identity command string. -/
def identityCommand : Vendor → String
  | Vendor.mikrotik => "/system identity print"
  | Vendor.aruba => "show running-config | include hostname"
  | Vendor.arista => "show hostname"

/-- The per-vendor neighbor command string. -/
def neighborCommand : Vendor → String
  | Vendor.mikrotik => "/ip neighbor print detail"
  | Vendor.aruba => "show lldp neighbors-information detail"
  | Vendor.arista => "show lldp neighbors detail"

/-- Per-vendor `get_hostname`, taking the configured address and the identity
command output. -/
def vendorGetHostname : Vendor → String → String → String
  | Vendor.mikrotik => mikrotik_get_hostname
  | Vendor.aruba => aruba_get_hostname
  | Vendor.arista => arista_get_hostname

/-- Per-vendor `get_lldp_neighbors` on the neighbor command output. -/
def vendorParse : Vendor → String → List NeighborRecord
  | Vendor.mikrotik => mikrotik_get_lldp_neighbors
  | Vendor.aruba => aruba_get_lldp_neighbors
  | Vendor.arista => arista_get_lldp_neighbors

/-- One iteration of `NetworkDiscovery.discover_network` (source lines
252-294): an unsupported vendor is skipped with a warning; a failed
`connect()` is skipped; otherwise the device is registered and the surviving
connections appended. -/
def discoverStep (env : Env) (t : Topology) (cfg : SwitchConfig) : Topology :=
  match lookupVendor cfg.vendor with
  | none => t
  | some v =>
    if env.connectOk cfg.hostname then
      let deviceName := vendorGetHostname v cfg.hostname
        (env.output cfg.hostname (identityCommand v))
      let neighbors := vendorParse v (env.output cfg.hostname (neighborCommand v))
      let conns := buildConnections deviceName neighbors
      { devices := upsertDevice t.devices deviceName
          { hostname := cfg.hostname, vendor := strLower cfg.vendor, ip := cfg.hostname },
        connections := appendConns t.connections deviceName conns }
    else t

/-- `NetworkDiscovery.discover_network` over the configured switch list,
starting from the empty registry and topology. -/
def discover_network (env : Env) (cfgs : List SwitchConfig) : Topology :=
  cfgs.foldl (discoverStep env) { devices := [], connections := [] }

/-! ## Exporter and the visualizer's load

`json.dump` / `json.load` (the standard library) form a bijection between
JSON-representable values and their textual form; the repository's own code
builds the value to dump (source lines 298-301) and reads the loaded value
back (visualizer lines 37-47).  Both sides are modelled on a JSON value
tree. -/

/-- JSON values as produced and consumed by the tool. -/
inductive Json
  | str : String → Json
  | obj : List (String × Json) → Json
  | arr : List Json → Json

/-- The JSON shape of one connection (source lines 282-288, dumped as-is). -/
def connectionToJson (c : Connection) : Json :=
  Json.obj [("local_device", Json.str c.local_device),
            ("local_port", Json.str c.local_port),
            ("remote_device", Json.str c.remote_device),
            ("remote_port", Json.str c.remote_port),
            ("remote_ip", Json.str c.remote_ip)]

/-- The JSON shape of one device registry entry (source lines 274-278). -/
def deviceToJson (d : DeviceInfo) : Json :=
  Json.obj [("hostname", Json.str d.hostname),
            ("vendor", Json.str d.vendor),
            ("ip", Json.str d.ip)]

/-- `NetworkDiscovery.export_to_json` (source lines 296-304): the dumped
value `{'devices': self.devices, 'connections': dict(self.topology)}`. -/
def export_to_json (t : Topology) : Json :=
  Json.obj [("devices", Json.obj (t.devices.map (fun p => (p.1, deviceToJson p.2)))),
            ("connections", Json.obj (t.connections.map
              (fun p => (p.1, Json.arr (p.2.map connectionToJson)))))]

/-- Ordered-dict key lookup (`data.get(k, default)` consults the first, and
only, occurrence of a key). -/
def lookupKvs : List (String × Json) → String → Option Json
  | [], _ => none
  | (k', v) :: rest, k => if k' = k then some v else lookupKvs rest k

/-- `data.get(key)` on a JSON value. -/
def jsonLookup : Json → String → Option Json
  | Json.obj kvs, k => lookupKvs kvs k
  | _, _ => none

/-- Reads back one device entry with the fields the visualizer consumes
(`hostname`, `vendor`, `ip`), in the documented key order. -/
def jsonToDevice : Json → Option DeviceInfo
  | Json.obj [("hostname", Json.str h), ("vendor", Json.str v), ("ip", Json.str i)] =>
    some { hostname := h, vendor := v, ip := i }
  | _ => none

/-- Reads back one connection entry with the documented keys in order. -/
def jsonToConnection : Json → Option Connection
  | Json.obj [("local_device", Json.str ld), ("local_port", Json.str lp),
              ("remote_device", Json.str rd), ("remote_port", Json.str rp),
              ("remote_ip", Json.str rip)] =>
    some { local_device := ld, local_port := lp, remote_device := rd,
           remote_port := rp, remote_ip := rip }
  | _ => none

/-- Reads back the `devices` mapping. -/
def decodeDeviceEntries : List (String × Json) → Option (List (String × DeviceInfo))
  | [] => some []
  | (k, j) :: rest =>
    match jsonToDevice j, decodeDeviceEntries rest with
    | some d, some ds => some ((k, d) :: ds)
    | _, _ => none

/-- Reads back one connection list. -/
def decodeConnArray : List Json → Option (List Connection)
  | [] => some []
  | j :: rest =>
    match jsonToConnection j, decodeConnArray rest with
    | some c, some cs => some (c :: cs)
    | _, _ => none

/-- Reads back the `connections` mapping. -/
def decodeConnEntries : List (String × Json) → Option (List (String × List Connection))
  | [] => some []
  | (k, Json.arr js) :: rest =>
    match decodeConnArray js, decodeConnEntries rest with
    | some cs, some rest' => some ((k, cs) :: rest')
    | _, _ => none
  | _ => none

/-- `NetworkVisualizer.load_topology` (visualizer lines 37-47): take
`data.get('devices', {})` and `data.get('connections', {})` and read the
typed topology back out of them. -/
def load_topology (j : Json) : Option Topology :=
  match (jsonLookup j "devices").getD (Json.obj []),
        (jsonLookup j "connections").getD (Json.obj []) with
  | Json.obj dkvs, Json.obj ckvs =>
    match decodeDeviceEntries dkvs, decodeConnEntries ckvs with
    | some ds, some cs => some { devices := ds, connections := cs }
    | _, _ => none
  | _, _ => none

/-! ## Concrete values used by witnesses -/

/-- The seven-line Family B sample of spec section 8. -/
def familyBSample : String :=
  "Local Port        : 1/1/1\nSystem Name       : core-sw\nPort ID           : GigabitEthernet0/1\nManagement Address: 10.0.0.1\nLocal Port        : 1/1/2\nSystem Name       : edge-sw\nPort ID           : Gi0/5"

/-- A transport where every connection succeeds and every command returns no
usable output. -/
def envEmptyOut : Env := { connectOk := fun _ => true, output := fun _ _ => "" }

/-- A transport where every connection attempt fails. -/
def envNoConnect : Env := { connectOk := fun _ => false, output := fun _ _ => "" }

/-- A configured Mikrotik switch. -/
def cfgMik : SwitchConfig := { hostname := "192.0.2.10", vendor := "mikrotik" }

/-- A configured Aruba switch. -/
def cfgAruba : SwitchConfig := { hostname := "192.0.2.12", vendor := "aruba" }

/-- A configuration entry naming an unsupported vendor. -/
def cfgJuniper : SwitchConfig := { hostname := "192.0.2.11", vendor := "juniper" }

/-- A small concrete connection. -/
def connEx : Connection :=
  { local_device := "sw1", local_port := "1/1/1", remote_device := "sw2",
    remote_port := "eth1", remote_ip := "N/A" }

/-- A small concrete topology. -/
def topoEx : Topology :=
  { devices := [("sw1", { hostname := "192.0.2.1", vendor := "aruba", ip := "192.0.2.1" })],
    connections := [("sw1", [connEx])] }

/-- Accumulation of non-trigger field lines into a fresh buffer (the state a
labeled-block parser has built when no trigger line has occurred yet). -/
def updFold (upd : NeighborRecord → String → NeighborRecord) (lines : List String) :
    NeighborRecord :=
  lines.foldl (fun c raw => upd c (pyStrip raw)) emptyRecord

/-! ## Helper lemmas -/

theorem recNonempty_emptyRecord : recNonempty emptyRecord = false := rfl

theorem recNonempty_seed (v : String) :
    recNonempty { local_port := some v : NeighborRecord } = true := rfl

theorem updRD_local_port (c : NeighborRecord) (o : Option String) :
    (updRD c o).local_port = c.local_port := by
  cases o <;> rfl

theorem updRP_local_port (c : NeighborRecord) (o : Option String) :
    (updRP c o).local_port = c.local_port := by
  cases o <;> rfl

theorem updRIP_local_port (c : NeighborRecord) (o : Option String) :
    (updRIP c o).local_port = c.local_port := by
  cases o <;> rfl

theorem arubaFieldUpdates_local_port (c : NeighborRecord) (l : String) :
    (arubaFieldUpdates c l).local_port = c.local_port := by
  unfold arubaFieldUpdates
  rw [updRIP_local_port, updRP_local_port, updRD_local_port]

theorem aristaFieldUpdates_local_port (c : NeighborRecord) (l : String) :
    (aristaFieldUpdates c l).local_port = c.local_port := by
  unfold aristaFieldUpdates
  rw [updRIP_local_port, updRP_local_port, updRD_local_port]

theorem updRD_nonempty (c : NeighborRecord) (o : Option String)
    (h : recNonempty c = true) : recNonempty (updRD c o) = true := by
  cases o with
  | none => exact h
  | some v => simp [updRD, recNonempty]

theorem updRP_nonempty (c : NeighborRecord) (o : Option String)
    (h : recNonempty c = true) : recNonempty (updRP c o) = true := by
  cases o with
  | none => exact h
  | some v => simp [updRP, recNonempty]

theorem updRIP_nonempty (c : NeighborRecord) (o : Option String)
    (h : recNonempty c = true) : recNonempty (updRIP c o) = true := by
  cases o with
  | none => exact h
  | some v => simp [updRIP, recNonempty]

theorem arubaFieldUpdates_nonempty (c : NeighborRecord) (l : String)
    (h : recNonempty c = true) : recNonempty (arubaFieldUpdates c l) = true := by
  unfold arubaFieldUpdates
  exact updRIP_nonempty _ _ (updRP_nonempty _ _ (updRD_nonempty _ _ h))

theorem aristaFieldUpdates_nonempty (c : NeighborRecord) (l : String)
    (h : recNonempty c = true) : recNonempty (aristaFieldUpdates c l) = true := by
  unfold aristaFieldUpdates
  exact updRIP_nonempty _ _ (updRP_nonempty _ _ (updRD_nonempty _ _ h))

theorem mandatory_mkConnection (dn : String) (r : NeighborRecord)
    (h : recordHasMandatory r = true) :
    mkConnection dn r = some (connFromRecord dn r) := by
  obtain ⟨lp, rd, rp, rip⟩ := r
  cases lp <;> cases rd <;> cases rp <;>
    simp_all [recordHasMandatory, mkConnection, connFromRecord]

theorem missing_mkConnection (dn : String) (r : NeighborRecord)
    (h : recordHasMandatory r = false) : mkConnection dn r = none := by
  obtain ⟨lp, rd, rp, rip⟩ := r
  cases lp <;> cases rd <;> cases rp <;> simp_all [recordHasMandatory, mkConnection]

theorem mkConnection_no_local_port (dn : String) (r : NeighborRecord)
    (h : r.local_port = none) : mkConnection dn r = none := by
  obtain ⟨lp, rd, rp, rip⟩ := r
  subst h
  cases rd <;> cases rp <;> rfl

theorem buildConnections_eq (dn : String) (ns : List NeighborRecord) :
    buildConnections dn ns =
      (ns.filter (fun r => recordHasMandatory r)).map (connFromRecord dn) := by
  induction ns with
  | nil => rfl
  | cons r rest ih =>
    by_cases h : recordHasMandatory r = true
    · simp [buildConnections, List.filterMap_cons, mandatory_mkConnection dn r h,
        List.filter_cons, h]
      exact ih
    · have h' : recordHasMandatory r = false := by
        cases hb : recordHasMandatory r
        · rfl
        · exact absurd hb h
      simp [buildConnections, List.filterMap_cons, missing_mkConnection dn r h',
        List.filter_cons, h']
      exact ih

theorem blockStep_eq_some (trig : String → Option String)
    (upd : NeighborRecord → String → NeighborRecord)
    (st : List NeighborRecord × NeighborRecord) (raw v : String)
    (h : trig (pyStrip raw) = some v) :
    blockStep trig upd st raw =
      ((if recNonempty st.2 then st.1 ++ [st.2] else st.1),
        upd { local_port := some v } (pyStrip raw)) := by
  simp only [blockStep, h]

theorem blockStep_eq_none (trig : String → Option String)
    (upd : NeighborRecord → String → NeighborRecord)
    (st : List NeighborRecord × NeighborRecord) (raw : String)
    (h : trig (pyStrip raw) = none) :
    blockStep trig upd st raw = (st.1, upd st.2 (pyStrip raw)) := by
  simp only [blockStep, h]

theorem blockScan_out (trig : String → Option String)
    (upd : NeighborRecord → String → NeighborRecord) (ls : List String) :
    ∀ (ns0 : List NeighborRecord) (cur : NeighborRecord),
      ls.foldl (blockStep trig upd) (ns0, cur) =
        (ns0 ++ (ls.foldl (blockStep trig upd) ([], cur)).1,
          (ls.foldl (blockStep trig upd) ([], cur)).2) := by
  induction ls with
  | nil => intro ns0 cur; simp
  | cons l rest ih =>
    intro ns0 cur
    simp only [List.foldl_cons]
    cases hl : trig (pyStrip l) with
    | some v =>
      simp only [blockStep_eq_some trig upd _ l v hl]
      by_cases hcur : recNonempty cur = true
      · simp only [hcur, if_true, List.nil_append]
        rw [ih (ns0 ++ [cur]), ih [cur]]
        simp [List.append_assoc]
      · simp only [hcur, if_false]
        exact ih ns0 _
    | none =>
      simp only [blockStep_eq_none trig upd _ l hl]
      exact ih ns0 _

theorem blockScan_no_trigger (trig : String → Option String)
    (upd : NeighborRecord → String → NeighborRecord) :
    ∀ (ls : List String) (ns : List NeighborRecord) (cur : NeighborRecord),
      (∀ l ∈ ls, trig (pyStrip l) = none) →
      ls.foldl (blockStep trig upd) (ns, cur) =
        (ns, ls.foldl (fun c raw => upd c (pyStrip raw)) cur) := by
  intro ls
  induction ls with
  | nil => intro ns cur _; rfl
  | cons l rest ih =>
    intro ns cur h
    have hl : trig (pyStrip l) = none := h l (by simp)
    simp only [List.foldl_cons]
    rw [blockStep_eq_none trig upd _ l hl]
    exact ih ns _ (fun x hx => h x (by simp [hx]))

theorem foldUpd_local_port (upd : NeighborRecord → String → NeighborRecord)
    (hlp : ∀ c l, (upd c l).local_port = c.local_port) :
    ∀ (ls : List String) (cur : NeighborRecord),
      (ls.foldl (fun c raw => upd c (pyStrip raw)) cur).local_port = cur.local_port := by
  intro ls
  induction ls with
  | nil => intro cur; rfl
  | cons l rest ih =>
    intro cur
    simp only [List.foldl_cons]
    rw [ih, hlp]

theorem blockScan_count (trig : String → Option String)
    (upd : NeighborRecord → String → NeighborRecord)
    (hne : ∀ c l, recNonempty c = true → recNonempty (upd c l) = true) :
    ∀ (ls : List String) (cur : NeighborRecord), recNonempty cur = true →
      (ls.foldl (blockStep trig upd) ([], cur)).1.length +
        (if recNonempty (ls.foldl (blockStep trig upd) ([], cur)).2 then 1 else 0) =
      ls.countP (fun l => (trig (pyStrip l)).isSome) + 1 := by
  intro ls
  induction ls with
  | nil =>
    intro cur hcur
    simp [hcur]
  | cons l rest ih =>
    intro cur hcur
    simp only [List.foldl_cons]
    cases hl : trig (pyStrip l) with
    | some v =>
      have hseed : recNonempty (upd { local_port := some v } (pyStrip l)) = true :=
        hne _ _ (recNonempty_seed v)
      have h2 := ih _ hseed
      simp only [blockStep_eq_some trig upd _ l v hl, hcur, if_true, List.nil_append]
      simp only [blockScan_out trig upd rest [cur]]
      rw [List.countP_cons]
      simp only [hl, Option.isSome_some, if_true, List.length_append, List.length_cons,
        List.length_nil]
      omega
    | none =>
      have h2 := ih (upd cur (pyStrip l)) (hne _ _ hcur)
      simp only [blockStep_eq_none trig upd _ l hl]
      rw [List.countP_cons]
      simp only [hl, Option.isSome_none, Bool.false_eq_true, if_false]
      omega

theorem blockParse_empty (trig : String → Option String)
    (upd : NeighborRecord → String → NeighborRecord) :
    blockParseLines trig upd [] = [] := rfl

theorem blockParse_leading (trig : String → Option String)
    (upd : NeighborRecord → String → NeighborRecord)
    (hlp : ∀ c l, (upd c l).local_port = c.local_port)
    (hne : ∀ c l, recNonempty c = true → recNonempty (upd c l) = true)
    (pre rest : List String)
    (hpre : ∀ l ∈ pre, trig (pyStrip l) = none)
    (hbuf : recNonempty (updFold upd pre) = true)
    (hrest : rest = [] ∨ ∃ t rest2, rest = t :: rest2 ∧ (trig (pyStrip t)).isSome = true) :
    blockParseLines trig upd (pre ++ rest) = updFold upd pre :: blockParseLines trig upd rest
    ∧ (updFold upd pre).local_port = none
    ∧ (blockParseLines trig upd (pre ++ rest)).length =
        (pre ++ rest).countP (fun l => (trig (pyStrip l)).isSome) + 1 := by
  have hscanpre : blockScan trig upd pre = ([], updFold upd pre) :=
    blockScan_no_trigger trig upd pre [] emptyRecord hpre
  have hlpnone : (updFold upd pre).local_port = none :=
    foldUpd_local_port upd hlp pre emptyRecord
  have hcount0 : pre.countP (fun l => (trig (pyStrip l)).isSome) = 0 := by
    rw [List.countP_eq_zero]
    intro l hl
    simp [hpre l hl]
  have hsplitscan : blockScan trig upd (pre ++ rest) =
      rest.foldl (blockStep trig upd) ([], updFold upd pre) := by
    unfold blockScan at hscanpre ⊢
    rw [List.foldl_append, hscanpre]
  have hmain : blockParseLines trig upd (pre ++ rest) =
      updFold upd pre :: blockParseLines trig upd rest
      ∧ (blockParseLines trig upd rest).length =
          rest.countP (fun l => (trig (pyStrip l)).isSome) := by
    rcases hrest with hnil | ⟨t, rest2, hcons, htrig⟩
    · subst hnil
      have h1 : blockScan trig upd (pre ++ []) = ([], updFold upd pre) := by
        rw [hsplitscan]
        rfl
      constructor
      · simp only [blockParseLines, h1, hbuf, if_true, blockParse_empty]
        rfl
      · rfl
    · subst hcons
      obtain ⟨v, hv⟩ := Option.isSome_iff_exists.mp htrig
      have hseed : recNonempty (upd { local_port := some v } (pyStrip t)) = true :=
        hne _ _ (recNonempty_seed v)
      have hq : blockScan trig upd (t :: rest2) =
          rest2.foldl (blockStep trig upd) ([], upd { local_port := some v } (pyStrip t)) := by
        unfold blockScan
        rw [List.foldl_cons]
        simp only [blockStep_eq_some trig upd _ t v hv, recNonempty_emptyRecord,
          Bool.false_eq_true, if_false]
      have hscanfull : blockScan trig upd (pre ++ t :: rest2) =
          ([updFold upd pre] ++ (blockScan trig upd (t :: rest2)).1,
            (blockScan trig upd (t :: rest2)).2) := by
        rw [hsplitscan, List.foldl_cons]
        simp only [blockStep_eq_some trig upd _ t v hv, hbuf, if_true, List.nil_append]
        rw [blockScan_out trig upd rest2 [updFold upd pre], hq]
      constructor
      · simp only [blockParseLines, hscanfull]
        by_cases hb : recNonempty (blockScan trig upd (t :: rest2)).2 = true
        · simp [hb]
        · simp [hb]
      · have hcnt := blockScan_count trig upd hne rest2 _ hseed
        simp only [blockParseLines, hq]
        rw [List.countP_cons]
        simp only [hv, Option.isSome_some, if_true]
        by_cases hb : recNonempty (rest2.foldl (blockStep trig upd)
            ([], upd { local_port := some v } (pyStrip t))).2 = true
        · rw [hb] at hcnt ⊢
          simp only [if_true, List.length_append, List.length_cons, List.length_nil] at *
          omega
        · have hb2 : recNonempty (rest2.foldl (blockStep trig upd)
              ([], upd { local_port := some v } (pyStrip t))).2 = false := by
            cases hx : recNonempty (rest2.foldl (blockStep trig upd)
                ([], upd { local_port := some v } (pyStrip t))).2
            · rfl
            · exact absurd hx hb
          rw [hb2] at hcnt ⊢
          simp only [Bool.false_eq_true, if_false] at *
          omega
  refine ⟨hmain.1, hlpnone, ?_⟩
  rw [hmain.1, List.countP_append, hcount0]
  simp only [List.length_cons, hmain.2]
  omega

/-! ## Claim theorems -/

/-- C1: the claim says a Family A (Mikrotik) neighbor block containing an
`interface-name=...` line yields a record with `remote_port` set to that
value.  Evaluating the parser at such a block shows the code instead assigns
the value to `local_port`: the `'interface' in key.lower()` test subsumes
`'interface-name' in key.lower()`, so the `remote_port` branch of the
`elif` chain is unreachable and `remote_port` stays absent. -/
theorem mikrotik_interface_name_shadowed :
    mikrotik_get_lldp_neighbors "0\n   interface-name=ether5" =
      [{ local_port := some "ether5", remote_device := none,
         remote_port := none, remote_ip := none }]
    ∧ strContains (strLower "interface-name") "interface" = true := by
  exact ⟨rfl, rfl⟩

/-- C2: on the seven-line Family B sample of spec section 8, the Aruba parser
produces exactly the two expected records in order, and the Device Probe's
record handling turns them into the two expected connections, the absent
management address of the second defaulting to the sentinel `"N/A"`. -/
theorem familyB_sample_expected_parse (dn : String) :
    aruba_get_lldp_neighbors familyBSample =
      [{ local_port := some "1/1/1", remote_device := some "core-sw",
         remote_port := some "GigabitEthernet0/1", remote_ip := some "10.0.0.1" },
       { local_port := some "1/1/2", remote_device := some "edge-sw",
         remote_port := some "Gi0/5", remote_ip := none }]
    ∧ buildConnections dn (aruba_get_lldp_neighbors familyBSample) =
      [{ local_device := dn, local_port := "1/1/1", remote_device := "core-sw",
         remote_port := "GigabitEthernet0/1", remote_ip := "10.0.0.1" },
       { local_device := dn, local_port := "1/1/2", remote_device := "edge-sw",
         remote_port := "Gi0/5", remote_ip := "N/A" }] := by
  exact ⟨rfl, rfl⟩

/-- Witness for C2 at a concrete device name. -/
theorem familyB_sample_expected_parse_witness :
    buildConnections "core-sw" (aruba_get_lldp_neighbors familyBSample) =
      [{ local_device := "core-sw", local_port := "1/1/1", remote_device := "core-sw",
         remote_port := "GigabitEthernet0/1", remote_ip := "10.0.0.1" },
       { local_device := "core-sw", local_port := "1/1/2", remote_device := "edge-sw",
         remote_port := "Gi0/5", remote_ip := "N/A" }] :=
  (familyB_sample_expected_parse "core-sw").2

/-- C3: for every parsed record sequence, the Device Probe's loop keeps
exactly the records with all three mandatory fields, in their relative
order (each yielding one `Connection` built from its fields with
`local_device` the resolved device name), drops every record missing a
mandatory field, and never produces more connections than records. -/
theorem probe_mandatory_field_filter (dn : String) (ns : List NeighborRecord) :
    buildConnections dn ns =
      (ns.filter (fun r => recordHasMandatory r)).map (connFromRecord dn)
    ∧ (∀ r ∈ ns, recordHasMandatory r = false → mkConnection dn r = none)
    ∧ (∀ c ∈ buildConnections dn ns, c.local_device = dn)
    ∧ (buildConnections dn ns).length ≤ ns.length := by
  refine ⟨buildConnections_eq dn ns, ?_, ?_, ?_⟩
  · intro r _ h
    exact missing_mkConnection dn r h
  · intro c hc
    rw [buildConnections_eq dn ns] at hc
    obtain ⟨r, _, rfl⟩ := List.mem_map.mp hc
    rfl
  · calc (buildConnections dn ns).length
        = ((ns.filter (fun r => recordHasMandatory r)).map (connFromRecord dn)).length := by
          rw [buildConnections_eq dn ns]
      _ = (ns.filter (fun r => recordHasMandatory r)).length := List.length_map _ _
      _ ≤ ns.length := List.length_filter_le _ _

/-- Witness for C3 on a concrete record list: one record missing
`remote_port` is dropped, the well-formed sibling survives. -/
theorem probe_mandatory_field_filter_witness :
    buildConnections "sw1"
        [{ local_port := some "e1", remote_device := some "d1",
           remote_port := none, remote_ip := none },
         { local_port := some "e2", remote_device := some "d2",
           remote_port := some "p2", remote_ip := none }] =
      [{ local_device := "sw1", local_port := "e2", remote_device := "d2",
         remote_port := "p2", remote_ip := "N/A" }] := by
  have h := (probe_mandatory_field_filter "sw1"
    [{ local_port := some "e1", remote_device := some "d1",
       remote_port := none, remote_ip := none },
     { local_port := some "e2", remote_device := some "d2",
       remote_port := some "p2", remote_ip := none }]).1
  rw [h]
  rfl

/-- C4: for every vendor parser and every input, whenever the record buffered
at end of input is non-empty it is appended as the final element of the
output sequence — the final block, not terminated by a trigger line, is never
dropped. -/
theorem final_buffer_flushed (lines : List String) :
    (recNonempty (mikrotikScan lines).2 = true →
      mikrotikParseLines lines = (mikrotikScan lines).1 ++ [(mikrotikScan lines).2])
    ∧ (recNonempty (blockScan arubaTrig arubaFieldUpdates lines).2 = true →
      arubaParseLines lines = (blockScan arubaTrig arubaFieldUpdates lines).1 ++
        [(blockScan arubaTrig arubaFieldUpdates lines).2])
    ∧ (recNonempty (blockScan aristaTrig aristaFieldUpdates lines).2 = true →
      aristaParseLines lines = (blockScan aristaTrig aristaFieldUpdates lines).1 ++
        [(blockScan aristaTrig aristaFieldUpdates lines).2]) := by
  refine ⟨fun h => ?_, fun h => ?_, fun h => ?_⟩
  · simp only [mikrotikParseLines, h, if_true]
  · simp only [arubaParseLines, blockParseLines, h, if_true]
  · simp only [aristaParseLines, blockParseLines, h, if_true]

/-- Witness for C4: concrete one-block inputs with no trailing trigger line,
one per parser. -/
theorem final_buffer_flushed_witness :
    mikrotikParseLines ["identity=sw1"] =
      (mikrotikScan ["identity=sw1"]).1 ++ [(mikrotikScan ["identity=sw1"]).2]
    ∧ arubaParseLines ["System Name : x"] =
      (blockScan arubaTrig arubaFieldUpdates ["System Name : x"]).1 ++
        [(blockScan arubaTrig arubaFieldUpdates ["System Name : x"]).2]
    ∧ aristaParseLines ["System Name: x"] =
      (blockScan aristaTrig aristaFieldUpdates ["System Name: x"]).1 ++
        [(blockScan aristaTrig aristaFieldUpdates ["System Name: x"]).2] :=
  ⟨(final_buffer_flushed ["identity=sw1"]).1 rfl,
   (final_buffer_flushed ["System Name : x"]).2.1 rfl,
   (final_buffer_flushed ["System Name: x"]).2.2 rfl⟩

/-- C5: when a command yields no usable output (the transport returns the
empty string), every vendor parser returns the empty record sequence, and the
probe still registers the device while appending zero connections — the
failure is not fatal, the step is a total function of the state. -/
theorem command_failure_zero_neighbors :
    (∀ v : Vendor, vendorParse v "" = [])
    ∧ (∀ (env : Env) (t : Topology) (cfg : SwitchConfig) (v : Vendor),
        lookupVendor cfg.vendor = some v →
        env.connectOk cfg.hostname = true →
        env.output cfg.hostname (neighborCommand v) = "" →
        (discoverStep env t cfg).devices =
          upsertDevice t.devices
            (vendorGetHostname v cfg.hostname (env.output cfg.hostname (identityCommand v)))
            { hostname := cfg.hostname, vendor := strLower cfg.vendor, ip := cfg.hostname }
        ∧ (discoverStep env t cfg).connections = t.connections) := by
  have hvp : ∀ v : Vendor, vendorParse v "" = [] := by
    intro v
    cases v <;> rfl
  refine ⟨hvp, ?_⟩
  intro env t cfg v hlv hco hout
  simp only [discoverStep, hlv, hco, if_true, hout, hvp v]
  exact ⟨trivial, rfl⟩

/-- Witness for C5: a reachable Mikrotik switch whose commands all return
empty output; the probe leaves the connection map unchanged. -/
theorem command_failure_zero_neighbors_witness :
    (discoverStep envEmptyOut topoEx cfgMik).connections = topoEx.connections :=
  (command_failure_zero_neighbors.2 envEmptyOut topoEx cfgMik Vendor.mikrotik rfl rfl rfl).2

/-- C6: a configuration entry whose vendor is not one of the three supported
families is skipped entirely: the run over the remaining entries is
unchanged, so the topology holds no entry for that switch and the run
completes. -/
theorem unsupported_vendor_skipped (env : Env) (pre post : List SwitchConfig)
    (cfg : SwitchConfig) (h : lookupVendor cfg.vendor = none) :
    discover_network env (pre ++ cfg :: post) = discover_network env (pre ++ post) := by
  unfold discover_network
  rw [List.foldl_append, List.foldl_append, List.foldl_cons]
  have hskip : ∀ t : Topology, discoverStep env t cfg = t := by
    intro t
    simp only [discoverStep, h]
  rw [hskip]

/-- Witness for C6: a `juniper` entry is skipped and contributes nothing. -/
theorem unsupported_vendor_skipped_witness :
    discover_network envEmptyOut [cfgJuniper] = discover_network envEmptyOut [] :=
  unsupported_vendor_skipped envEmptyOut [] [] cfgJuniper rfl

/-- C7: connect failures are confined to the failing switches — the run
equals the run over only the supported, reachable entries — and when every
connection fails the exported JSON is still produced, equal to the export of
the empty topology. -/
theorem connect_failure_confined (env : Env) (cfgs : List SwitchConfig) :
    discover_network env cfgs =
      discover_network env (cfgs.filter
        (fun c => (lookupVendor c.vendor).isSome && env.connectOk c.hostname))
    ∧ ((∀ c ∈ cfgs, env.connectOk c.hostname = false) →
        export_to_json (discover_network env cfgs) =
          export_to_json { devices := [], connections := [] }) := by
  have hgen : ∀ (l : List SwitchConfig) (t : Topology),
      l.foldl (discoverStep env) t =
        (l.filter (fun c => (lookupVendor c.vendor).isSome && env.connectOk c.hostname)).foldl
          (discoverStep env) t := by
    intro l
    induction l with
    | nil => intro t; rfl
    | cons c cs ih =>
      intro t
      by_cases h : ((lookupVendor c.vendor).isSome && env.connectOk c.hostname) = true
      · simp only [List.filter_cons, h, if_true, List.foldl_cons]
        exact ih _
      · have hskip : discoverStep env t c = t := by
          cases hl : lookupVendor c.vendor with
          | none => simp only [discoverStep, hl]
          | some v =>
            have hc : env.connectOk c.hostname = false := by
              cases hx : env.connectOk c.hostname
              · rfl
              · exact absurd (by rw [hl, hx]; rfl) h
            simp only [discoverStep, hl, hc, Bool.false_eq_true, if_false]
        have h' : ((lookupVendor c.vendor).isSome && env.connectOk c.hostname) = false := by
          cases hx : ((lookupVendor c.vendor).isSome && env.connectOk c.hostname)
          · rfl
          · exact absurd hx h
        simp only [List.filter_cons, h', Bool.false_eq_true, if_false, List.foldl_cons, hskip]
        exact ih t
  constructor
  · exact hgen cfgs _
  · intro hall
    have hnil : cfgs.filter
        (fun c => (lookupVendor c.vendor).isSome && env.connectOk c.hostname) = [] := by
      rw [List.filter_eq_nil_iff]
      intro c hc
      simp [hall c hc]
    unfold discover_network
    rw [hgen cfgs, hnil]
    rfl

/-- Witness for C7: with every connect failing, the run over two configured
switches still exports, with the empty topology. -/
theorem connect_failure_confined_witness :
    export_to_json (discover_network envNoConnect [cfgMik, cfgAruba]) =
      export_to_json { devices := [], connections := [] } :=
  (connect_failure_confined envNoConnect [cfgMik, cfgAruba]).2 (fun _ _ => rfl)

/-- C8: for each vendor, hostname resolution returns the configured address
exactly when the identity output matches no recognized pattern, and the
captured identity string when it does; both cases are total, so identity
resolution never fails the probe. -/
theorem identity_resolution_fallback (configured out : String) :
    (searchMikrotikIdentity out = none → mikrotik_get_hostname configured out = configured)
    ∧ (∀ s, searchMikrotikIdentity out = some s → mikrotik_get_hostname configured out = s)
    ∧ (searchArubaHostname out = none → aruba_get_hostname configured out = configured)
    ∧ (∀ s, searchArubaHostname out = some s → aruba_get_hostname configured out = s)
    ∧ (aristaIdentity out = none → arista_get_hostname configured out = configured)
    ∧ (∀ s, aristaIdentity out = some s → arista_get_hostname configured out = s) := by
  refine ⟨fun h => ?_, fun s h => ?_, fun h => ?_, fun s h => ?_, fun h => ?_, fun s h => ?_⟩ <;>
    simp [mikrotik_get_hostname, aruba_get_hostname, arista_get_hostname, h]

/-- Witness for C8: for each vendor, one output that matches no identity
pattern (falling back to the configured address) and one that matches. -/
theorem identity_resolution_fallback_witness :
    mikrotik_get_hostname "192.0.2.1" "no identity output" = "192.0.2.1"
    ∧ mikrotik_get_hostname "192.0.2.1" "   name: sw-core" = "sw-core"
    ∧ aruba_get_hostname "192.0.2.2" "" = "192.0.2.2"
    ∧ aruba_get_hostname "192.0.2.2" "hostname \"aruba-sw1\"" = "aruba-sw1"
    ∧ arista_get_hostname "192.0.2.3" "" = "192.0.2.3"
    ∧ arista_get_hostname "192.0.2.3" "core-arista" = "core-arista" :=
  ⟨(identity_resolution_fallback "192.0.2.1" "no identity output").1 rfl,
   (identity_resolution_fallback "192.0.2.1" "   name: sw-core").2.1 "sw-core" rfl,
   (identity_resolution_fallback "192.0.2.2" "").2.2.1 rfl,
   (identity_resolution_fallback "192.0.2.2" "hostname \"aruba-sw1\"").2.2.2.1 "aruba-sw1" rfl,
   (identity_resolution_fallback "192.0.2.3" "").2.2.2.2.1 rfl,
   (identity_resolution_fallback "192.0.2.3" "core-arista").2.2.2.2.2 "core-arista" rfl⟩

theorem jsonToDevice_roundtrip (d : DeviceInfo) :
    jsonToDevice (deviceToJson d) = some d := rfl

theorem jsonToConnection_roundtrip (c : Connection) :
    jsonToConnection (connectionToJson c) = some c := rfl

theorem decodeDeviceEntries_roundtrip (ds : List (String × DeviceInfo)) :
    decodeDeviceEntries (ds.map (fun p => (p.1, deviceToJson p.2))) = some ds := by
  induction ds with
  | nil => rfl
  | cons p rest ih =>
    obtain ⟨k, d⟩ := p
    simp only [List.map_cons, decodeDeviceEntries, jsonToDevice_roundtrip, ih]

theorem decodeConnArray_roundtrip (cs : List Connection) :
    decodeConnArray (cs.map connectionToJson) = some cs := by
  induction cs with
  | nil => rfl
  | cons c rest ih =>
    simp only [List.map_cons, decodeConnArray, jsonToConnection_roundtrip, ih]

theorem decodeConnEntries_roundtrip (cs : List (String × List Connection)) :
    decodeConnEntries (cs.map (fun p => (p.1, Json.arr (p.2.map connectionToJson)))) =
      some cs := by
  induction cs with
  | nil => rfl
  | cons p rest ih =>
    obtain ⟨k, conns⟩ := p
    simp only [List.map_cons, decodeConnEntries, decodeConnArray_roundtrip, ih]

/-- C9: serializing a finalized topology with the exporter and loading the
result with the visualizer's load reconstructs the same topology — same
devices with the same hostname, vendor and ip fields, and the same ordered
connection sequences with the same field values. -/
theorem export_load_roundtrip (t : Topology) :
    load_topology (export_to_json t) = some t := by
  obtain ⟨ds, cs⟩ := t
  simp only [export_to_json, load_topology, jsonLookup, lookupKvs]
  rw [if_pos trivial, if_neg (show ¬("devices" = "connections") by decide), if_pos trivial]
  simp only [Option.getD_some, decodeDeviceEntries_roundtrip, decodeConnEntries_roundtrip]

/-- Witness for C9 on a concrete topology. -/
theorem export_load_roundtrip_witness :
    load_topology (export_to_json topoEx) = some topoEx :=
  export_load_roundtrip topoEx

/-- C10: for the Family B (Aruba) and Family C (Arista) parsers, field lines
that precede the first trigger line accumulate into the buffer and are
emitted as an extra leading record with no `local_port` when the first
trigger arrives (or at end of input); the record count therefore exceeds the
number of trigger-delimited blocks by one, and the Device Probe's
mandatory-field filter later removes exactly that leading record. -/
theorem leading_field_lines_extra_record (pre rest : List String) :
    ((∀ l ∈ pre, arubaTrig (pyStrip l) = none) →
     recNonempty (updFold arubaFieldUpdates pre) = true →
     (rest = [] ∨ ∃ t rest2, rest = t :: rest2 ∧ (arubaTrig (pyStrip t)).isSome = true) →
     arubaParseLines (pre ++ rest) = updFold arubaFieldUpdates pre :: arubaParseLines rest
     ∧ (updFold arubaFieldUpdates pre).local_port = none
     ∧ (arubaParseLines (pre ++ rest)).length =
         (pre ++ rest).countP (fun l => (arubaTrig (pyStrip l)).isSome) + 1
     ∧ (∀ dn, buildConnections dn (arubaParseLines (pre ++ rest)) =
         buildConnections dn (arubaParseLines rest)))
    ∧ ((∀ l ∈ pre, aristaTrig (pyStrip l) = none) →
     recNonempty (updFold aristaFieldUpdates pre) = true →
     (rest = [] ∨ ∃ t rest2, rest = t :: rest2 ∧ (aristaTrig (pyStrip t)).isSome = true) →
     aristaParseLines (pre ++ rest) = updFold aristaFieldUpdates pre :: aristaParseLines rest
     ∧ (updFold aristaFieldUpdates pre).local_port = none
     ∧ (aristaParseLines (pre ++ rest)).length =
         (pre ++ rest).countP (fun l => (aristaTrig (pyStrip l)).isSome) + 1
     ∧ (∀ dn, buildConnections dn (aristaParseLines (pre ++ rest)) =
         buildConnections dn (aristaParseLines rest))) := by
  constructor
  · intro hpre hbuf hrest
    obtain ⟨h1, h2, h3⟩ := blockParse_leading arubaTrig arubaFieldUpdates
      arubaFieldUpdates_local_port arubaFieldUpdates_nonempty pre rest hpre hbuf hrest
    have h4 : arubaParseLines (pre ++ rest) =
        updFold arubaFieldUpdates pre :: arubaParseLines rest := h1
    refine ⟨h4, h2, h3, fun dn => ?_⟩
    rw [h4]
    simp [buildConnections, List.filterMap_cons, mkConnection_no_local_port dn _ h2]
  · intro hpre hbuf hrest
    obtain ⟨h1, h2, h3⟩ := blockParse_leading aristaTrig aristaFieldUpdates
      aristaFieldUpdates_local_port aristaFieldUpdates_nonempty pre rest hpre hbuf hrest
    have h4 : aristaParseLines (pre ++ rest) =
        updFold aristaFieldUpdates pre :: aristaParseLines rest := h1
    refine ⟨h4, h2, h3, fun dn => ?_⟩
    rw [h4]
    simp [buildConnections, List.filterMap_cons, mkConnection_no_local_port dn _ h2]

/-- Witness for C10: a stray `System Name` line before the first trigger, for
each of the two parsers. -/
theorem leading_field_lines_extra_record_witness :
    arubaParseLines (["System Name : orphan"] ++ ["Local Port : 1/1/1"]) =
      updFold arubaFieldUpdates ["System Name : orphan"] ::
        arubaParseLines ["Local Port : 1/1/1"]
    ∧ aristaParseLines (["System Name: orphan"] ++ ["Interface Ethernet1 detected"]) =
      updFold aristaFieldUpdates ["System Name: orphan"] ::
        aristaParseLines ["Interface Ethernet1 detected"] :=
  ⟨((leading_field_lines_extra_record ["System Name : orphan"] ["Local Port : 1/1/1"]).1
      (by decide) (by decide)
      (Or.inr ⟨"Local Port : 1/1/1", [], rfl, by decide⟩)).1,
   ((leading_field_lines_extra_record ["System Name: orphan"]
        ["Interface Ethernet1 detected"]).2
      (by decide) (by decide)
      (Or.inr ⟨"Interface Ethernet1 detected", [], rfl, by decide⟩)).1⟩

end LLDP
